import Mathlib

/-!
Verification development for the Avocado cost-of-living backend
(`backend/main.py`).  The numeric pipeline is embedded over `ℚ` with
Python's `round` modelled as round-half-to-even (`pyRound`); money amounts
are `ℤ`.  External collaborators (the Gemini extraction and approximation
calls, the pickled scoring model) are parameters: their structured
responses are explicit data, their failure is `Option`/`none`.
-/

namespace Avocado

/-- Python's built-in `round`: nearest integer, ties to even.  The
fractional part of `q` is below / above a half exactly when `2*q` is
below / above `2*⌊q⌋ + 1`. -/
def pyRound (q : ℚ) : ℤ :=
  let n := ⌊q⌋
  if 2 * q < 2 * (n : ℚ) + 1 then n
  else if 2 * (n : ℚ) + 1 < 2 * q then n + 1
  else if n % 2 = 0 then n else n + 1

theorem pyRound_nonneg (q : ℚ) (hq : 0 ≤ q) : 0 ≤ pyRound q := by
  have h0 : (0 : ℤ) ≤ ⌊q⌋ := Int.floor_nonneg.mpr hq
  unfold pyRound
  dsimp only
  split
  · exact h0
  · split
    · omega
    · split <;> omega

/-- Result record of `score_to_cost` in `backend/main.py` (lines 314-328). -/
structure ScoreCost where
  score : ℚ
  monthly : ℤ
  range_low : ℤ
  range_high : ℤ
  deriving DecidableEq, Repr

/-- Embedding of `score_to_cost` (`backend/main.py` lines 314-328):
`base = min + score*(max-min)` with `min = 1000`, `max = 5000`,
`monthly = round(base)`; the reported score is `round(score, 4)`. -/
def score_to_cost (score : ℚ) : ScoreCost :=
  let mn : ℚ := 1000
  let mx : ℚ := 5000
  let base := mn + score * (mx - mn)
  let monthly := pyRound base
  { score := (pyRound (score * 10000) : ℚ) / 10000
    monthly := monthly
    range_low := pyRound ((monthly : ℚ) * 0.85)
    range_high := pyRound ((monthly : ℚ) * 1.25) }

/-- Embedding of `adjust_monthly_with_rules` (`backend/main.py`
lines 334-371): start at multiplier 1.0, add `min(0.20*kids, 0.60)` when
kids is set and positive, add 0.05 for "rent" / 0.35 for "buy", add
`min(0.18*cars, 0.54)` when cars is set and positive, then round
`base_monthly * multiplier`.  The `city` argument is accepted and unused,
as in the source. -/
def adjust_monthly_with_rules (_city : String) (base_monthly : ℤ)
    (kids : Option ℤ) (housing : Option String) (cars : Option ℤ) : ℤ :=
  let multiplier : ℚ := 1.0
  let multiplier :=
    match kids with
    | some k => if 0 < k then multiplier + min (0.20 * (k : ℚ)) 0.60 else multiplier
    | none => multiplier
  let multiplier :=
    if housing = some "rent" then multiplier + 0.05
    else if housing = some "buy" then multiplier + 0.35
    else multiplier
  let multiplier :=
    match cars with
    | some c => if 0 < c then multiplier + min (0.18 * (c : ℚ)) 0.54 else multiplier
    | none => multiplier
  pyRound ((base_monthly : ℚ) * multiplier)

example : (score_to_cost (4212/10000)).monthly = 2685 := by
  norm_num +decide [score_to_cost, pyRound]
example : adjust_monthly_with_rules "x" 2685 (some 2) (some "rent") (some 1) = 4377 := by
  norm_num +decide [adjust_monthly_with_rules, pyRound]
example : adjust_monthly_with_rules "x" 1000 (some 10) none none = 1600 := by
  norm_num +decide [adjust_monthly_with_rules, pyRound]
example : (score_to_cost (-1/10000)).monthly = 1000 := by
  norm_num +decide [score_to_cost, pyRound]

/-- The six-component normalized city factor vector (§3 of the data model;
six `*_norm` columns in `backend/main.py`). -/
structure CityFactorVector where
  housing : ℚ
  food : ℚ
  restaurants : ℚ
  transport : ℚ
  internet_utils : ℚ
  lifestyle : ℚ
  deriving DecidableEq, Repr

/-- Every component lies in the unit interval `[0,1]`. -/
def vec_in_unit (v : CityFactorVector) : Prop :=
  0 ≤ v.housing ∧ v.housing ≤ 1 ∧ 0 ≤ v.food ∧ v.food ≤ 1 ∧
  0 ≤ v.restaurants ∧ v.restaurants ≤ 1 ∧ 0 ≤ v.transport ∧ v.transport ≤ 1 ∧
  0 ≤ v.internet_utils ∧ v.internet_utils ≤ 1 ∧ 0 ≤ v.lifestyle ∧ v.lifestyle ≤ 1

instance (v : CityFactorVector) : Decidable (vec_in_unit v) := by
  unfold vec_in_unit; infer_instance

/-- Per-category integer amounts of the cost breakdown
(`housing_cost` … `lifestyle_cost` in `backend/main.py`). -/
structure Breakdown where
  housing_cost : ℤ
  food_cost : ℤ
  restaurants_cost : ℤ
  transport_cost : ℤ
  internet_utils_cost : ℤ
  lifestyle_cost : ℤ
  deriving DecidableEq, Repr

def sumB (b : Breakdown) : ℤ :=
  b.housing_cost + b.food_cost + b.restaurants_cost + b.transport_cost +
    b.internet_utils_cost + b.lifestyle_cost

/-- First phase of the breakdown (`backend/main.py` lines 545-560): each
category gets `final_monthly * share * (norm / 0.5)`, rounded
independently.  Shares: housing 0.42, food 0.14, restaurants 0.11,
transport 0.04, internet/utils 0.05, lifestyle 0.24. -/
def raw_breakdown (final_monthly : ℤ) (n : CityFactorVector) : Breakdown where
  housing_cost := pyRound ((final_monthly : ℚ) * 0.42 * n.housing / 0.5)
  food_cost := pyRound ((final_monthly : ℚ) * 0.14 * n.food / 0.5)
  restaurants_cost := pyRound ((final_monthly : ℚ) * 0.11 * n.restaurants / 0.5)
  transport_cost := pyRound ((final_monthly : ℚ) * 0.04 * n.transport / 0.5)
  internet_utils_cost := pyRound ((final_monthly : ℚ) * 0.05 * n.internet_utils / 0.5)
  lifestyle_cost := pyRound ((final_monthly : ℚ) * 0.24 * n.lifestyle / 0.5)

/-- Embedding of the breakdown reconciliation (`backend/main.py` lines
562-572): when the independently rounded amounts miss the total and their
sum is positive, the five non-lifestyle categories are rescaled by
`final_monthly / sum` and re-rounded, and lifestyle is forced to make the
total exact; otherwise the raw rounded amounts are returned as they are. -/
def allocate_breakdown (final_monthly : ℤ) (n : CityFactorVector) : Breakdown :=
  let b := raw_breakdown final_monthly n
  let s := sumB b
  if s ≠ final_monthly ∧ 0 < s then
    let ratio : ℚ := (final_monthly : ℚ) / (s : ℚ)
    let h := pyRound ((b.housing_cost : ℚ) * ratio)
    let f := pyRound ((b.food_cost : ℚ) * ratio)
    let r := pyRound ((b.restaurants_cost : ℚ) * ratio)
    let t := pyRound ((b.transport_cost : ℚ) * ratio)
    let i := pyRound ((b.internet_utils_cost : ℚ) * ratio)
    ⟨h, f, r, t, i, final_monthly - (h + f + r + t + i)⟩
  else b

def half_vec : CityFactorVector := ⟨1/2, 1/2, 1/2, 1/2, 1/2, 1/2⟩

def zero_vec : CityFactorVector := ⟨0, 0, 0, 0, 0, 0⟩

example : sumB (allocate_breakdown 4376 half_vec) = 4376 := by
  norm_num +decide [allocate_breakdown, raw_breakdown, sumB, half_vec, pyRound]
example : sumB (allocate_breakdown 4377 half_vec) = 4377 := by
  norm_num +decide [allocate_breakdown, raw_breakdown, sumB, half_vec, pyRound]
example : sumB (allocate_breakdown 4376 zero_vec) = 0 := by
  norm_num +decide [allocate_breakdown, raw_breakdown, sumB, zero_vec, pyRound]

/-- One row of the city-norms catalog CSV
(`dataset/cost_of_living-processed.csv`, loaded in `backend/main.py`
lines 54-68; the `City` column is whitespace-stripped at load). -/
structure CatalogRow where
  city : String
  housing_norm : ℚ
  food_norm : ℚ
  restaurants_norm : ℚ
  transport_norm : ℚ
  internet_utils_norm : ℚ
  lifestyle_norm : ℚ
  deriving DecidableEq, Repr

/-- A JSON value of the parsed approximation response, restricted to the
shapes relevant here: a number, or JSON `null`. -/
inductive JVal where
  | num (q : ℚ)
  | null
  deriving DecidableEq, Repr

/-- Python's `float(value)`: succeeds on a number, raises (`none`) on
`None`. -/
def pyFloat : JVal → Option ℚ
  | .num q => some q
  | .null => none

/-- The parsed Gemini approximation response (`backend/main.py` lines
268-275): each of the six keys is either absent (`none`) or maps to a
JSON value. -/
structure ApproxResponse where
  housing_norm : Option JVal
  food_norm : Option JVal
  restaurants_norm : Option JVal
  transport_norm : Option JVal
  internet_utils_norm : Option JVal
  lifestyle_norm : Option JVal
  deriving DecidableEq, Repr

/-- One field of the fallback path: `float(data.get(key, 0.5))` — an
absent key defaults to `0.5`, a present key goes through `float`, which
raises (`none`) on a non-numeric value. -/
def approx_field (v : Option JVal) : Option ℚ :=
  match v with
  | none => some (1/2)
  | some w => pyFloat w

/-- Python's `max(0, min(1, v))` used on the fallback path
(`backend/main.py` line 278). -/
def clamp01 (q : ℚ) : ℚ := max 0 (min 1 q)

/-- Python's `str.lower()` (ASCII model), character by character. -/
def py_lower (s : String) : String := ⟨s.data.map Char.toLower⟩

/-- Python's `str.strip()`: drop leading and trailing whitespace. -/
def py_strip (s : String) : String :=
  ⟨((s.data.dropWhile Char.isWhitespace).reverse.dropWhile Char.isWhitespace).reverse⟩

/-- Catalog lookup of `build_city_features` (`backend/main.py` line 210):
the stored `City` column lower-cased is compared with the stripped,
lower-cased input. -/
def lookup_city (catalog : List CatalogRow) (city : String) : Option CatalogRow :=
  catalog.find? (fun r => py_lower r.city == py_lower (py_strip city))

/-- Embedding of `build_city_features` (`backend/main.py` lines 202-279),
parameterized by the loaded catalog and by the parsed approximation
response the external call would deliver for this city.  On a catalog hit
the six stored values are returned verbatim; on a miss each response
field is defaulted when absent, converted by `float` (which can raise,
hence the `Option` result), and clamped to `[0,1]`. -/
def build_city_features (catalog : List CatalogRow) (approx : ApproxResponse)
    (city : String) : Option CityFactorVector :=
  match lookup_city catalog city with
  | some row =>
      some ⟨row.housing_norm, row.food_norm, row.restaurants_norm,
            row.transport_norm, row.internet_utils_norm, row.lifestyle_norm⟩
  | none =>
      (approx_field approx.housing_norm).bind fun h =>
      (approx_field approx.food_norm).bind fun f =>
      (approx_field approx.restaurants_norm).bind fun r =>
      (approx_field approx.transport_norm).bind fun t =>
      (approx_field approx.internet_utils_norm).bind fun i =>
      (approx_field approx.lifestyle_norm).bind fun l =>
      some ⟨clamp01 h, clamp01 f, clamp01 r, clamp01 t, clamp01 i, clamp01 l⟩

/-- A catalog row whose stored housing norm lies outside `[0,1]`. -/
def hot_row : CatalogRow := ⟨"metropolis", 3/2, 1/2, 1/2, 1/2, 1/2, 1/2⟩

/-- An approximation response with every key absent. -/
def empty_approx : ApproxResponse := ⟨none, none, none, none, none, none⟩

/-- An approximation response whose `housing_norm` key is present but
holds JSON `null`. -/
def null_approx : ApproxResponse :=
  ⟨some .null, none, none, none, none, none⟩

example : build_city_features [hot_row] empty_approx "Metropolis" =
    some ⟨3/2, 1/2, 1/2, 1/2, 1/2, 1/2⟩ := by
  norm_num +decide [build_city_features, lookup_city, hot_row, empty_approx, approx_field]
example : build_city_features [] null_approx "Gotham" = none := by
  norm_num +decide [build_city_features, lookup_city, null_approx, approx_field, pyFloat]
example : build_city_features [] empty_approx "Gotham" =
    some ⟨1/2, 1/2, 1/2, 1/2, 1/2, 1/2⟩ := by
  norm_num +decide [build_city_features, lookup_city, empty_approx, approx_field, clamp01]

/-- Per-session household facts (`session_memory` entries in
`backend/main.py` lines 467-473): all four slots start as `None`. -/
structure SessionFacts where
  city : Option String
  kids : Option ℤ
  housing : Option String
  cars : Option ℤ
  deriving DecidableEq, Repr

def empty_facts : SessionFacts := ⟨none, none, none, none⟩

/-- Structured extraction result, as returned by
`extract_info_with_gemini` (`backend/main.py` lines 191-196). -/
structure ExtractedInfo where
  city : Option String
  kids : Option ℤ
  housing : Option String
  cars : Option ℤ
  deriving DecidableEq, Repr

/-- Python truthiness of an optional string: `None` and the empty string
are falsy, every other string is truthy. -/
def py_truthy : Option String → Bool
  | none => false
  | some s => !(s == "")

/-- Housing normalization inside `extract_info_with_gemini`
(`backend/main.py` lines 186-189): a truthy housing value is lower-cased
and replaced by `None` unless it is `"rent"` or `"buy"`; a falsy value
(`None` or `""`) is left untouched. -/
def normalize_housing : Option String → Option String
  | none => none
  | some s =>
      if s == "" then some s
      else if py_lower s == "rent" || py_lower s == "buy" then some (py_lower s)
      else none

/-- The merge of one extraction result into the session state
(`backend/main.py` lines 480-490): `city` and `housing` are overwritten
when the extracted value is truthy, `kids` and `cars` when it is not
`None`. -/
def merge_facts (state : SessionFacts) (info : ExtractedInfo) : SessionFacts where
  city := if py_truthy info.city then info.city else state.city
  kids := match info.kids with
    | some k => some k
    | none => state.kids
  housing := if py_truthy info.housing then info.housing else state.housing
  cars := match info.cars with
    | some c => some c
    | none => state.cars

example : (merge_facts ⟨some "Tokyo", none, none, none⟩ ⟨none, none, none, none⟩).city =
    some "Tokyo" := by decide
example : (merge_facts ⟨some "Tokyo", none, none, none⟩ ⟨some "", none, none, none⟩).city =
    some "Tokyo" := by decide
example : normalize_housing (some "RENT") = some "rent" := by decide
example : normalize_housing (some "own") = none := by decide
example : normalize_housing (some "") = some "" := by decide

/-- Numeric payload of a successful estimate response
(`ConversationResponse` fields of `backend/main.py` lines 601-620 that
carry the computed numbers). -/
structure ChatNumbers where
  score : ℚ
  monthly_estimate : ℤ
  range_low : ℤ
  range_high : ℤ
  breakdown : Breakdown
  deriving DecidableEq, Repr

/-- The two shapes of an `/ai-chat` reply: the prompt-for-city response
(which carries no numbers) or a full estimate. -/
inductive ChatReply where
  | askCity (kids : Option ℤ) (housing : Option String) (cars : Option ℤ)
  | estimate (facts : SessionFacts) (nums : ChatNumbers)
  deriving DecidableEq, Repr

def ChatReply.is_ask_city : ChatReply → Bool
  | .askCity _ _ _ => true
  | .estimate _ _ => false

/-- One `/ai-chat` turn after a successful extraction (`backend/main.py`
lines 475-620), parameterized by the scoring pipeline's externals: the
per-city model score (`run_base_model`'s `base_score`) and the per-city
factor vector (its `norms`).  The narrative reply, news and weather are
external text and carry no numbers, so they are omitted. -/
def ai_chat_step (state : SessionFacts) (info : ExtractedInfo)
    (model_score : String → ℚ) (city_norms : String → CityFactorVector) :
    SessionFacts × ChatReply :=
  let st := merge_facts state info
  match st.city with
  | none => (st, .askCity st.kids st.housing st.cars)
  | some city =>
      let base_score := model_score city
      let norms := city_norms city
      let base_cost := score_to_cost base_score
      let final_monthly :=
        adjust_monthly_with_rules city base_cost.monthly st.kids st.housing st.cars
      let breakdown := allocate_breakdown final_monthly norms
      (st, .estimate st
        { score := base_cost.score
          monthly_estimate := final_monthly
          range_low := pyRound ((final_monthly : ℚ) * 0.85)
          range_high := pyRound ((final_monthly : ℚ) * 1.25)
          breakdown := breakdown })

/-- A whole conversation from a fresh session: fold `ai_chat_step` over
the per-message extraction results, collecting every reply. -/
def run_turns (model_score : String → ℚ) (city_norms : String → CityFactorVector)
    (state : SessionFacts) : List ExtractedInfo → SessionFacts × List ChatReply
  | [] => (state, [])
  | info :: rest =>
      let step := ai_chat_step state info model_score city_norms
      let tail := run_turns model_score city_norms step.1 rest
      (tail.1, step.2 :: tail.2)

/-- The process-wide session map (`session_memory` in `backend/main.py`
line 30), as an association list keyed by session id. -/
def facts_of (mem : List (String × SessionFacts)) (sid : String) : SessionFacts :=
  match mem.find? (fun p => p.1 == sid) with
  | some p => p.2
  | none => empty_facts

/-- Session creation on first reference (`backend/main.py` lines
467-473). -/
def ensure_session (mem : List (String × SessionFacts)) (sid : String) :
    List (String × SessionFacts) :=
  match mem.find? (fun p => p.1 == sid) with
  | some _ => mem
  | none => (sid, empty_facts) :: mem

def set_session (mem : List (String × SessionFacts)) (sid : String)
    (st : SessionFacts) : List (String × SessionFacts) :=
  (sid, st) :: mem.filter (fun p => !(p.1 == sid))

/-- One full `/ai-chat` request (`backend/main.py` lines 461-620) with a
fallible extraction call: the session record is created first; if the
extraction raises (`none`) the request fails with no reply and no merge;
otherwise the turn runs and the merged facts are stored. -/
def ai_chat_request (mem : List (String × SessionFacts)) (sid : String)
    (ext : Option ExtractedInfo) (model_score : String → ℚ)
    (city_norms : String → CityFactorVector) :
    List (String × SessionFacts) × Option ChatReply :=
  let mem1 := ensure_session mem sid
  match ext with
  | none => (mem1, none)
  | some info =>
      let step := ai_chat_step (facts_of mem1 sid) info model_score city_norms
      (set_session mem1 sid step.1, some step.2)

/-! Helper lemmas shared by the claim theorems. -/

theorem kids_cap_saturates (k : ℤ) (hk : 3 ≤ k) :
    min (0.20 * (k : ℚ)) 0.60 = (0.60 : ℚ) := by
  apply min_eq_right
  have hkq : (3 : ℚ) ≤ (k : ℚ) := by exact_mod_cast hk
  linarith

theorem cars_cap_saturates (c : ℤ) (hc : 3 ≤ c) :
    min (0.18 * (c : ℚ)) 0.54 = (0.54 : ℚ) := by
  apply min_eq_right
  have hcq : (3 : ℚ) ≤ (c : ℚ) := by exact_mod_cast hc
  linarith

theorem raw_breakdown_sum_nonneg (m : ℤ) (n : CityFactorVector) (hm : 0 ≤ m)
    (hn : vec_in_unit n) : 0 ≤ sumB (raw_breakdown m n) := by
  obtain ⟨h1, -, h2, -, h3, -, h4, -, h5, -, h6, -⟩ := hn
  have hmq : (0 : ℚ) ≤ (m : ℚ) := by exact_mod_cast hm
  have key : ∀ share x : ℚ, 0 ≤ share → 0 ≤ x →
      0 ≤ pyRound ((m : ℚ) * share * x / 0.5) := by
    intro share x hs hx
    apply pyRound_nonneg
    apply div_nonneg _ (by norm_num)
    exact mul_nonneg (mul_nonneg hmq hs) hx
  have := key 0.42 n.housing (by norm_num) h1
  have := key 0.14 n.food (by norm_num) h2
  have := key 0.11 n.restaurants (by norm_num) h3
  have := key 0.04 n.transport (by norm_num) h4
  have := key 0.05 n.internet_utils (by norm_num) h5
  have := key 0.24 n.lifestyle (by norm_num) h6
  simp only [raw_breakdown, sumB] at *
  omega

/-! Claim theorems. -/

/-- C1 (counterexample): with every factor equal to 0 (a valid factor
vector) and adjusted monthly 4376, all six rounded amounts are 0, the
rescaling branch is skipped, and the breakdown sums to 0, not 4376. -/
theorem claim_c1_counterexample :
    (0 : ℤ) ≤ 4376 ∧ vec_in_unit zero_vec ∧
      sumB (allocate_breakdown 4376 zero_vec) ≠ 4376 := by
  refine ⟨by norm_num, by norm_num [vec_in_unit, zero_vec], ?_⟩
  norm_num +decide [allocate_breakdown, raw_breakdown, sumB, zero_vec, pyRound]

/-- C1 (amended): for adjusted_monthly ≥ 0 and a factor vector with all
six components in `[0,1]`, the six breakdown amounts sum exactly to
adjusted_monthly whenever the independently rounded amounts have nonzero
sum or adjusted_monthly is 0; when every amount rounds to 0 while
adjusted_monthly is positive, no rescaling is attempted and the breakdown
sums to 0 instead. -/
theorem claim_c1_exact_sum (m : ℤ) (n : CityFactorVector) (hm : 0 ≤ m)
    (hn : vec_in_unit n) (hs : sumB (raw_breakdown m n) ≠ 0 ∨ m = 0) :
    sumB (allocate_breakdown m n) = m := by
  have hs0 : 0 ≤ sumB (raw_breakdown m n) := raw_breakdown_sum_nonneg m n hm hn
  simp only [allocate_breakdown]
  by_cases hcond : sumB (raw_breakdown m n) ≠ m ∧ 0 < sumB (raw_breakdown m n)
  · rw [if_pos hcond]
    simp only [sumB]
    ring
  · rw [if_neg hcond]
    push_neg at hcond
    by_cases hsm : sumB (raw_breakdown m n) = m
    · exact hsm
    · have h1 : sumB (raw_breakdown m n) ≤ 0 := by
        have := hcond hsm
        omega
      rcases hs with h2 | h2 <;> omega

/-- C1 (witness): at adjusted monthly 4376 with the neutral all-0.5
factor vector the rounded amounts already sum to 4376 ≠ 0, and the
breakdown sums exactly to 4376. -/
theorem claim_c1_exact_sum_witness :
    sumB (allocate_breakdown 4376 half_vec) = 4376 :=
  claim_c1_exact_sum 4376 half_vec (by norm_num)
    (by norm_num [vec_in_unit, half_vec])
    (Or.inl (by norm_num +decide [raw_breakdown, sumB, half_vec, pyRound]))

/-- C5: the kids term of the adjustment saturates at 3 kids and the cars
term at 3 cars, for every baseline and every other fact; in particular
`adjust(1000, kids=10)` and `adjust(1000, kids=3)` are both 1600. -/
theorem claim_c5_saturation (city : String) (base : ℤ) (housing : Option String)
    (kids cars : Option ℤ) (k c : ℤ) (hk : 3 ≤ k) (hc : 3 ≤ c) :
    adjust_monthly_with_rules city base (some k) housing cars
      = adjust_monthly_with_rules city base (some 3) housing cars ∧
    adjust_monthly_with_rules city base kids housing (some c)
      = adjust_monthly_with_rules city base kids housing (some 3) ∧
    adjust_monthly_with_rules "x" 1000 (some 10) none none = 1600 ∧
    adjust_monthly_with_rules "x" 1000 (some 3) none none = 1600 := by
  refine ⟨?_, ?_, ?_, ?_⟩
  · have hk0 : (0 : ℤ) < k := by omega
    simp only [adjust_monthly_with_rules, kids_cap_saturates k hk,
      kids_cap_saturates 3 (le_refl 3), if_pos hk0]
    norm_num
  · have hc0 : (0 : ℤ) < c := by omega
    simp only [adjust_monthly_with_rules, cars_cap_saturates c hc,
      cars_cap_saturates 3 (le_refl 3), if_pos hc0]
    norm_num
  · norm_num +decide [adjust_monthly_with_rules, pyRound]
  · norm_num +decide [adjust_monthly_with_rules, pyRound]

/-- C5 (witness): the saturation theorem applied at kids = 10 and
cars = 5. -/
theorem claim_c5_saturation_witness :
    adjust_monthly_with_rules "x" 1000 (some 10) none none
        = adjust_monthly_with_rules "x" 1000 (some 3) none none ∧
      adjust_monthly_with_rules "x" 1000 (some 10) none none = 1600 :=
  ⟨(claim_c5_saturation "x" 1000 none none none 10 5 (by norm_num) (by norm_num)).1,
   (claim_c5_saturation "x" 1000 none none none 10 5 (by norm_num) (by norm_num)).2.2.1⟩

/-- C8 (counterexample): the score -1/10000 lies outside `[0,1]`, yet the
mapper's baseline is `round(1000 - 0.4) = 1000`, which is inside
`[1000, 5000]` — so "scores outside [0,1] produce baselines outside
[1000, 5000]" fails as a universal statement. -/
theorem claim_c8_counterexample :
    (-1/10000 : ℚ) < 0 ∧ (score_to_cost (-1/10000)).monthly = 1000 ∧
      1000 ≤ (score_to_cost (-1/10000)).monthly ∧
      (score_to_cost (-1/10000)).monthly ≤ 5000 := by
  refine ⟨by norm_num, ?_, ?_, ?_⟩ <;>
    norm_num +decide [score_to_cost, pyRound]

/-- C8 (amended): for every score the mapper returns
`round(1000 + score*(5000-1000))` with no prior clamping of the score, so
scores outside `[0,1]` can produce baselines outside `[1000, 5000]`
(score 2 gives 9000, score -1 gives -3000), though a score marginally
outside `[0,1]` may still round to a baseline inside the range. -/
theorem claim_c8_linear_map :
    (∀ s : ℚ, (score_to_cost s).monthly = pyRound (1000 + s * 4000)) ∧
      (score_to_cost 2).monthly = 9000 ∧
      (score_to_cost (-1)).monthly = -3000 := by
  refine ⟨fun s => ?_, ?_, ?_⟩
  · norm_num [score_to_cost]
  · norm_num +decide [score_to_cost, pyRound]
  · norm_num +decide [score_to_cost, pyRound]

theorem clamp01_mem (q : ℚ) : 0 ≤ clamp01 q ∧ clamp01 q ≤ 1 :=
  ⟨le_max_left 0 _, max_le (by norm_num) (min_le_left 1 q)⟩

theorem build_city_features_miss (catalog : List CatalogRow)
    (approx : ApproxResponse) (city : String)
    (h : lookup_city catalog city = none) :
    build_city_features catalog approx city =
      ((approx_field approx.housing_norm).bind fun h =>
      (approx_field approx.food_norm).bind fun f =>
      (approx_field approx.restaurants_norm).bind fun r =>
      (approx_field approx.transport_norm).bind fun t =>
      (approx_field approx.internet_utils_norm).bind fun i =>
      (approx_field approx.lifestyle_norm).bind fun l =>
      some ⟨clamp01 h, clamp01 f, clamp01 r, clamp01 t, clamp01 i, clamp01 l⟩) := by
  simp only [build_city_features, h]

/-- C2 (counterexample): with a catalog row storing housing norm 3/2, the
resolver returns the stored values verbatim on a catalog hit — no `[0,1]`
clamp is applied on that path, so a component of the resulting vector
lies outside `[0,1]`. -/
theorem claim_c2_counterexample :
    build_city_features [hot_row] empty_approx "Metropolis"
        = some ⟨3/2, 1/2, 1/2, 1/2, 1/2, 1/2⟩ ∧
      ¬ vec_in_unit ⟨3/2, 1/2, 1/2, 1/2, 1/2, 1/2⟩ := by
  constructor
  · norm_num +decide [build_city_features, lookup_city, hot_row, empty_approx,
      approx_field]
  · norm_num [vec_in_unit]

/-- C2 (amended): on the approximation path every component of the
resulting vector is clamped into `[0,1]`; on a catalog hit the six stored
values are returned verbatim with no clamp, so the result lies in `[0,1]`
only if the stored values do. -/
theorem claim_c2_clamping :
    (∀ (catalog : List CatalogRow) (approx : ApproxResponse) (city : String),
      lookup_city catalog city = none →
      ∀ v, build_city_features catalog approx city = some v → vec_in_unit v) ∧
    (∀ (catalog : List CatalogRow) (approx : ApproxResponse) (city : String)
      (row : CatalogRow), lookup_city catalog city = some row →
      build_city_features catalog approx city =
        some ⟨row.housing_norm, row.food_norm, row.restaurants_norm,
              row.transport_norm, row.internet_utils_norm, row.lifestyle_norm⟩) := by
  constructor
  · intro catalog approx city hmiss v hv
    rw [build_city_features_miss catalog approx city hmiss] at hv
    simp only [Option.bind_eq_some, Option.some.injEq] at hv
    obtain ⟨q1, -, q2, -, q3, -, q4, -, q5, -, q6, -, hv⟩ := hv
    subst hv
    exact ⟨(clamp01_mem q1).1, (clamp01_mem q1).2, (clamp01_mem q2).1,
      (clamp01_mem q2).2, (clamp01_mem q3).1, (clamp01_mem q3).2,
      (clamp01_mem q4).1, (clamp01_mem q4).2, (clamp01_mem q5).1,
      (clamp01_mem q5).2, (clamp01_mem q6).1, (clamp01_mem q6).2⟩
  · intro catalog approx city row hrow
    simp only [build_city_features, hrow]

/-- C2 (witness): the approximation path applied to the all-defaults
response yields the all-0.5 vector, whose components the theorem places
in `[0,1]`. -/
theorem claim_c2_clamping_witness :
    vec_in_unit ⟨1/2, 1/2, 1/2, 1/2, 1/2, 1/2⟩ :=
  claim_c2_clamping.1 [] empty_approx "Springfield" rfl
    ⟨1/2, 1/2, 1/2, 1/2, 1/2, 1/2⟩
    (by norm_num +decide [build_city_features, lookup_city, empty_approx,
      approx_field, clamp01])

/-- C3 (counterexample): with no catalog match and an approximation
response whose `housing_norm` key is present but holds JSON `null` — a
non-numeric, "unparsable" value — resolution raises (`float(None)`
throws) instead of defaulting the field to 0.5. -/
theorem claim_c3_counterexample :
    null_approx.housing_norm = some JVal.null ∧
      build_city_features [] null_approx "Gotham" = none := by decide

/-- C3 (amended): on a catalog miss, absent response fields default to
0.5 and numeric fields are used as parsed (then clamped), but a present
non-numeric field (JSON `null`) makes `float` raise: the resolver returns
a vector exactly when every present field is numeric. -/
theorem claim_c3_miss_defaults :
    (approx_field none = some (1/2)) ∧
    (∀ q : ℚ, approx_field (some (.num q)) = some q) ∧
    (approx_field (some .null) = none) ∧
    (∀ (catalog : List CatalogRow) (approx : ApproxResponse) (city : String),
      lookup_city catalog city = none →
      ∀ h f r t i l : ℚ,
        approx_field approx.housing_norm = some h →
        approx_field approx.food_norm = some f →
        approx_field approx.restaurants_norm = some r →
        approx_field approx.transport_norm = some t →
        approx_field approx.internet_utils_norm = some i →
        approx_field approx.lifestyle_norm = some l →
        build_city_features catalog approx city =
          some ⟨clamp01 h, clamp01 f, clamp01 r, clamp01 t, clamp01 i, clamp01 l⟩) ∧
    (∀ (catalog : List CatalogRow) (approx : ApproxResponse) (city : String),
      lookup_city catalog city = none →
      (approx_field approx.housing_norm = none ∨ approx_field approx.food_norm = none ∨
        approx_field approx.restaurants_norm = none ∨
        approx_field approx.transport_norm = none ∨
        approx_field approx.internet_utils_norm = none ∨
        approx_field approx.lifestyle_norm = none) →
      build_city_features catalog approx city = none) := by
  refine ⟨rfl, fun q => rfl, rfl, ?_, ?_⟩
  · intro catalog approx city hmiss h f r t i l hh hf hr ht hi hl
    rw [build_city_features_miss catalog approx city hmiss, hh, hf, hr, ht, hi, hl]
    rfl
  · intro catalog approx city hmiss hnone
    rw [build_city_features_miss catalog approx city hmiss]
    rcases hnone with h | h | h | h | h | h <;> rw [h] <;>
      simp [Option.bind_eq_none]

/-- C3 (witness): the miss-path theorem applied to a concrete response
with two numeric fields and four absent fields. -/
theorem claim_c3_miss_defaults_witness :
    build_city_features [] ⟨none, some (.num (7/10)), none, none, none, some (.num 2)⟩
        "Springfield" =
      some ⟨clamp01 (1/2), clamp01 (7/10), clamp01 (1/2), clamp01 (1/2),
            clamp01 (1/2), clamp01 2⟩ :=
  claim_c3_miss_defaults.2.2.2.1 []
    ⟨none, some (.num (7/10)), none, none, none, some (.num 2)⟩
    "Springfield" rfl (1/2) (7/10) (1/2) (1/2) (1/2) 2
    rfl rfl rfl rfl rfl rfl

def c4_info : ExtractedInfo := ⟨some "Lisbon", some 2, some "rent", some 1⟩

def c4_score : String → ℚ := fun _ => 4212/10000

def c4_norms : String → CityFactorVector := fun _ => half_vec

/-- C4 (counterexample): at the claim's own inputs — baseline 2685, two
kids, renting, one car — the adjustment returns
`round(2685 * 1.63) = round(4376.55) = 4377`, not 4376. -/
theorem claim_c4_counterexample :
    adjust_monthly_with_rules "Lisbon" 2685 (some 2) (some "rent") (some 1) = 4377 ∧
      adjust_monthly_with_rules "Lisbon" 2685 (some 2) (some "rent") (some 1) ≠ 4376 := by
  constructor <;> norm_num +decide [adjust_monthly_with_rules, pyRound]

/-- C4 (amended): with model score 0.4212 and facts kids=2,
housing="rent", cars=1, the pipeline produces baseline
`round(1000 + 0.4212*4000) = 2685`, multiplier 1.63, adjusted monthly
`round(2685*1.63) = 4377`, `range_low = round(4377*0.85) = 3720`,
`range_high = round(4377*1.25) = 5471`, and (with the neutral all-0.5
factor vector) a breakdown whose six values sum exactly to 4377. -/
theorem claim_c4_pipeline :
    (score_to_cost (4212/10000)).monthly = 2685 ∧
      adjust_monthly_with_rules "Lisbon" 2685 (some 2) (some "rent") (some 1)
        = pyRound ((2685 : ℚ) * (163/100)) ∧
      (ai_chat_step empty_facts c4_info c4_score c4_norms).2
        = .estimate ⟨some "Lisbon", some 2, some "rent", some 1⟩
            ⟨4212/10000, 4377, 3720, 5471, ⟨1838, 613, 481, 175, 219, 1051⟩⟩ ∧
      sumB ⟨1838, 613, 481, 175, 219, 1051⟩ = 4377 := by
  refine ⟨?_, ?_, ?_, ?_⟩
  · norm_num +decide [score_to_cost, pyRound]
  · norm_num +decide [adjust_monthly_with_rules, pyRound]
  · norm_num +decide [ai_chat_step, merge_facts, py_truthy, empty_facts, c4_info,
      c4_score, c4_norms, score_to_cost, adjust_monthly_with_rules,
      allocate_breakdown, raw_breakdown, sumB, half_vec, pyRound]
  · norm_num [sumB]

/-- C6 (counterexample): an extraction that supplies the non-null city
value `""` does not overwrite the stored city: Python truthiness, not an
`is not None` test, guards the city merge. -/
theorem claim_c6_counterexample :
    (some "" ≠ (none : Option String)) ∧
      (merge_facts ⟨some "Tokyo", none, none, none⟩
          ⟨some "", none, none, none⟩).city ≠ some "" ∧
      (merge_facts ⟨some "Tokyo", none, none, none⟩
          ⟨some "", none, none, none⟩).city = some "Tokyo" := by decide

/-- C6 (amended): the merge keeps every field the extraction supplies as
null; kids and cars supplied non-null are always overwritten; city and
housing are overwritten exactly when the supplied string is truthy
(non-empty), so a supplied empty string leaves the stored value in place;
in particular an extraction with city=null after one with city="Tokyo"
leaves the session city as "Tokyo". -/
theorem claim_c6_merge (state : SessionFacts) (info : ExtractedInfo) :
    (info.city = none → (merge_facts state info).city = state.city) ∧
    (∀ s, info.city = some s → s ≠ "" → (merge_facts state info).city = some s) ∧
    (info.city = some "" → (merge_facts state info).city = state.city) ∧
    (info.kids = none → (merge_facts state info).kids = state.kids) ∧
    (∀ k, info.kids = some k → (merge_facts state info).kids = some k) ∧
    (info.housing = none → (merge_facts state info).housing = state.housing) ∧
    (∀ s, info.housing = some s → s ≠ "" →
      (merge_facts state info).housing = some s) ∧
    (info.housing = some "" → (merge_facts state info).housing = state.housing) ∧
    (info.cars = none → (merge_facts state info).cars = state.cars) ∧
    (∀ c, info.cars = some c → (merge_facts state info).cars = some c) ∧
    (merge_facts ⟨some "Tokyo", none, none, none⟩
        ⟨none, none, none, none⟩).city = some "Tokyo" := by
  refine ⟨?_, ?_, ?_, ?_, ?_, ?_, ?_, ?_, ?_, ?_, by decide⟩
  · intro h; simp [merge_facts, h, py_truthy]
  · intro s h hs
    simp [merge_facts, h, py_truthy, beq_eq_false_iff_ne.mpr hs]
  · intro h; simp [merge_facts, h, py_truthy]
  · intro h; simp [merge_facts, h]
  · intro k h; simp [merge_facts, h]
  · intro h; simp [merge_facts, h, py_truthy]
  · intro s h hs
    simp [merge_facts, h, py_truthy, beq_eq_false_iff_ne.mpr hs]
  · intro h; simp [merge_facts, h, py_truthy]
  · intro h; simp [merge_facts, h]
  · intro c h; simp [merge_facts, h]

/-- C6 (witness): the merge theorem applied at a concrete state and a
concrete extraction that supplies kids=2 and leaves city null. -/
theorem claim_c6_merge_witness :
    (merge_facts ⟨some "Tokyo", some 1, none, none⟩
        ⟨none, some 2, some "rent", none⟩).kids = some 2 ∧
      (merge_facts ⟨some "Tokyo", some 1, none, none⟩
          ⟨none, some 2, some "rent", none⟩).city = some "Tokyo" :=
  ⟨(claim_c6_merge ⟨some "Tokyo", some 1, none, none⟩
      ⟨none, some 2, some "rent", none⟩).2.2.2.2.1 2 rfl,
   (claim_c6_merge ⟨some "Tokyo", some 1, none, none⟩
      ⟨none, some 2, some "rent", none⟩).1 rfl⟩

theorem ai_chat_step_fst (st : SessionFacts) (info : ExtractedInfo)
    (ms : String → ℚ) (nf : String → CityFactorVector) :
    (ai_chat_step st info ms nf).1 = merge_facts st info := by
  simp only [ai_chat_step]
  cases h : (merge_facts st info).city <;> simp [h]

theorem ai_chat_step_city_none (st : SessionFacts) (info : ExtractedInfo)
    (ms : String → ℚ) (nf : String → CityFactorVector)
    (h : (merge_facts st info).city = none) :
    ai_chat_step st info ms nf =
      (merge_facts st info,
       .askCity (merge_facts st info).kids (merge_facts st info).housing
         (merge_facts st info).cars) := by
  simp only [ai_chat_step, h]

theorem run_turns_city_stays_none (ms ms' : String → ℚ)
    (nf nf' : String → CityFactorVector) (infos : List ExtractedInfo) :
    ∀ st : SessionFacts, st.city = none →
      (∀ i ∈ infos, py_truthy i.city = false) →
      (run_turns ms nf st infos).1.city = none ∧
      (∀ r ∈ (run_turns ms nf st infos).2, r.is_ask_city = true) ∧
      run_turns ms nf st infos = run_turns ms' nf' st infos := by
  induction infos with
  | nil => exact fun st hst _ => ⟨hst, by simp [run_turns], rfl⟩
  | cons i rest ih =>
      intro st hst h
      have hci : py_truthy i.city = false := h i (List.mem_cons_self i rest)
      have hmc : (merge_facts st i).city = none := by
        simp [merge_facts, hci, hst]
      have ihh := ih (merge_facts st i) hmc
        (fun j hj => h j (List.mem_cons_of_mem i hj))
      simp only [run_turns, ai_chat_step_city_none st i ms nf hmc,
        ai_chat_step_city_none st i ms' nf' hmc]
      refine ⟨ihh.1, ?_, ?_⟩
      · intro r hr
        rcases List.mem_cons.mp hr with hr | hr
        · rw [hr]; rfl
        · exact ihh.2.1 r hr
      · rw [ihh.2.2]

/-- C7: a session in which no extraction ever supplied a truthy city
keeps `city = None` through every turn, every reply is the
prompt-for-city response (which carries no score, estimate, range or
breakdown), and the whole run is independent of the scoring model and the
factor-vector source — the estimation pipeline is never consulted. -/
theorem claim_c7_readiness_gating (infos : List ExtractedInfo)
    (h : ∀ i ∈ infos, py_truthy i.city = false)
    (ms ms' : String → ℚ) (nf nf' : String → CityFactorVector) :
    (run_turns ms nf empty_facts infos).1.city = none ∧
      (∀ r ∈ (run_turns ms nf empty_facts infos).2, r.is_ask_city = true) ∧
      run_turns ms nf empty_facts infos = run_turns ms' nf' empty_facts infos :=
  run_turns_city_stays_none ms ms' nf nf' infos empty_facts rfl h

def c7_infos : List ExtractedInfo :=
  [⟨none, some 2, none, none⟩, ⟨some "", none, some "rent", none⟩]

/-- C7 (witness): a two-message conversation whose extractions supply no
truthy city (the second even supplies the falsy empty string) ends with
no city and only prompt replies. -/
theorem claim_c7_readiness_gating_witness :
    (run_turns (fun _ => (0 : ℚ)) (fun _ => half_vec) empty_facts c7_infos).1.city
        = none ∧
      ∀ r ∈ (run_turns (fun _ => (0 : ℚ)) (fun _ => half_vec) empty_facts
        c7_infos).2, r.is_ask_city = true :=
  ⟨(claim_c7_readiness_gating c7_infos (by decide) (fun _ => (0 : ℚ))
      (fun _ => (1 : ℚ)) (fun _ => half_vec) (fun _ => zero_vec)).1,
   (claim_c7_readiness_gating c7_infos (by decide) (fun _ => (0 : ℚ))
      (fun _ => (1 : ℚ)) (fun _ => half_vec) (fun _ => zero_vec)).2.1⟩

theorem facts_of_ensure (mem : List (String × SessionFacts)) (sid sid' : String) :
    facts_of (ensure_session mem sid) sid' = facts_of mem sid' := by
  unfold ensure_session
  cases h : mem.find? (fun p => p.1 == sid) with
  | some p => rfl
  | none =>
      unfold facts_of
      by_cases hss : sid = sid'
      · subst hss
        simp only [List.find?_cons, beq_self_eq_true, h]
      · simp only [List.find?_cons]
        have : ((sid, empty_facts).1 == sid') = false := by
          simp [hss]
        rw [this]

/-- C9: when the extraction call raises, the request fails with no reply
and no merge: for every session (the one addressed and every other one)
each stored fact after the failed request equals the fact before it; a
previously unseen session id only gains the fresh all-`None` record that
is created before extraction runs. -/
theorem claim_c9_failed_extraction_atomic (mem : List (String × SessionFacts))
    (sid sid' : String) (ms : String → ℚ) (nf : String → CityFactorVector) :
    facts_of (ai_chat_request mem sid none ms nf).1 sid' = facts_of mem sid' ∧
      (ai_chat_request mem sid none ms nf).2 = none := by
  constructor
  · simp only [ai_chat_request]
    exact facts_of_ensure mem sid sid'
  · rfl

/-- The session housing slot is `None`, `"rent"` or `"buy"`. -/
def housing_ok : Option String → Bool
  | none => true
  | some s => s == "rent" || s == "buy"

theorem normalize_housing_image (raw : Option String) :
    py_truthy (normalize_housing raw) = false ∨
      normalize_housing raw = some "rent" ∨ normalize_housing raw = some "buy" := by
  cases raw with
  | none => left; rfl
  | some s =>
      by_cases h0 : s = ""
      · subst h0; left; decide
      · simp only [normalize_housing]
        rw [if_neg (by simp [h0])]
        by_cases hb : (py_lower s == "rent" || py_lower s == "buy") = true
        · rw [if_pos hb]
          rcases Bool.or_eq_true_iff.mp hb with hb | hb
          · right; left; rw [beq_iff_eq.mp hb]
          · right; right; rw [beq_iff_eq.mp hb]
        · rw [if_neg hb]; left; rfl

theorem merge_housing_ok (state : SessionFacts) (info : ExtractedInfo)
    (raw : Option String) (hok : housing_ok state.housing = true)
    (heq : info.housing = normalize_housing raw) :
    housing_ok (merge_facts state info).housing = true := by
  rcases normalize_housing_image raw with h | h | h
  · simp [merge_facts, heq, h, hok]
  · simp [merge_facts, heq, h, py_truthy, housing_ok]
  · simp [merge_facts, heq, h, py_truthy, housing_ok]

theorem run_turns_housing_ok (ms : String → ℚ) (nf : String → CityFactorVector)
    (msgs : List ExtractedInfo) :
    ∀ st : SessionFacts, housing_ok st.housing = true →
      (∀ i ∈ msgs, ∃ raw, i.housing = normalize_housing raw) →
      housing_ok (run_turns ms nf st msgs).1.housing = true := by
  induction msgs with
  | nil => intro st h _; simpa [run_turns]
  | cons i rest ih =>
      intro st hok hall
      obtain ⟨raw, hraw⟩ := hall i (List.mem_cons_self i rest)
      simp only [run_turns, ai_chat_step_fst]
      exact ih (merge_facts st i) (merge_housing_ok st i raw hok hraw)
        (fun j hj => hall j (List.mem_cons_of_mem i hj))

/-- C10 (counterexample): extraction does not replace every
non-rent/non-buy housing value with null — the falsy empty string passes
through unchanged (the truthiness guard skips the normalization). -/
theorem claim_c10_counterexample :
    normalize_housing (some "") = some "" ∧
      some "" ≠ (none : Option String) ∧
      ("" : String) ≠ "rent" ∧ ("" : String) ≠ "buy" := by decide

/-- C10 (amended): extraction lower-cases every truthy housing string and
replaces a truthy value other than "rent"/"buy" with null; falsy values
(null or the empty string) pass through unchanged, but the merge stores a
housing value only when it is truthy, so after every merge — and hence
throughout any conversation started from a fresh session — the stored
housing field is one of null, "rent", "buy", and only those reach the
adjustment step. -/
theorem claim_c10_housing_invariant :
    (∀ s : String, s ≠ "" →
      (normalize_housing (some s) = none ∨
        normalize_housing (some s) = some "rent" ∨
        normalize_housing (some s) = some "buy")) ∧
    (∀ (state : SessionFacts) (info : ExtractedInfo) (raw : Option String),
      housing_ok state.housing = true → info.housing = normalize_housing raw →
      housing_ok (merge_facts state info).housing = true) ∧
    housing_ok empty_facts.housing = true ∧
    (∀ (ms : String → ℚ) (nf : String → CityFactorVector)
      (msgs : List ExtractedInfo),
      (∀ i ∈ msgs, ∃ raw, i.housing = normalize_housing raw) →
      housing_ok (run_turns ms nf empty_facts msgs).1.housing = true) := by
  refine ⟨?_, merge_housing_ok, rfl, ?_⟩
  · intro s hs
    have h := normalize_housing_image (some s)
    rcases h with h | h | h
    · left
      simp only [normalize_housing] at h ⊢
      rw [if_neg (by simp [hs])] at h ⊢
      by_cases hb : (py_lower s == "rent" || py_lower s == "buy") = true
      · rw [if_pos hb] at h
        simp [py_truthy] at h
        rcases Bool.or_eq_true_iff.mp hb with hb' | hb' <;>
          simp [beq_iff_eq.mp hb'] at h
      · rw [if_neg hb]
    · right; left; exact h
    · right; right; exact h
  · intro ms nf msgs hmsgs
    exact run_turns_housing_ok ms nf msgs empty_facts rfl hmsgs

/-- C10 (witness): a one-message conversation whose extraction normalized
the raw housing string "rent" leaves the session housing slot in
{null, rent, buy}. -/
theorem claim_c10_housing_invariant_witness :
    housing_ok (run_turns (fun _ => (0 : ℚ)) (fun _ => half_vec) empty_facts
        [⟨some "Paris", none, some "rent", none⟩]).1.housing = true :=
  claim_c10_housing_invariant.2.2.2 (fun _ => (0 : ℚ)) (fun _ => half_vec)
    [⟨some "Paris", none, some "rent", none⟩]
    (by
      intro i hi
      rw [List.mem_singleton.mp hi]
      exact ⟨some "rent", by decide⟩)

end Avocado
